import Mathlib

/-!
Verification of the alert-evaluation, notification-dispatch and
flood-prediction logic of the CTAS coastal-hazard backend
(`app/services/alert_service.py`, `app/services/notification_service.py`,
`app/services/ml_service.py`).

The Python services are embedded shallowly:

* machine floats become exact rationals (`ℚ`);
* optional / possibly-missing dictionary entries become `Option` values,
  with Python truthiness (`if lat and lon:`) made explicit;
* the ORM tables touched by the services become lists of records carrying
  exactly the fields the service code reads and writes, and each service
  method becomes a pure function from the old state to the new state;
* calls whose outcome is environmental (random noise, geodesic distance,
  delivery success of a single e-mail/SMS/push) take that outcome as an
  explicit parameter.
-/

namespace CTAS

/-- Python truthiness of an optional number: `None` and `0` are falsy. -/
def truthyQ : Option ℚ → Bool
  | none => false
  | some x => decide (x ≠ 0)

/-- Python truthiness of an optional string: `None` and `""` are falsy. -/
def truthyS : Option String → Bool
  | none => false
  | some s => decide (s ≠ "")

/-- One row of `AlertService.alert_thresholds`: the four per-severity cutoffs. -/
structure Thresholds where
  low : ℚ
  medium : ℚ
  high : ℚ
  critical : ℚ
deriving DecidableEq, Repr

/-- The `alert_thresholds` table built in `AlertService.__init__`
(alert_service.py lines 21-46). -/
def alert_thresholds : String → Option Thresholds
  | "flood" => some ⟨0.2, 0.4, 0.7, 0.9⟩
  | "tide" => some ⟨2.0, 2.5, 3.0, 3.5⟩
  | "wave" => some ⟨2.0, 3.0, 4.0, 5.0⟩
  | "storm" => some ⟨0.3, 0.6, 0.8, 1.0⟩
  | _ => none

/-- The `values` dictionary passed to `_calculate_severity`; absent keys are
`none` and `values.get(k, 0)` becomes `Option.getD _ 0`. -/
structure AlertValues where
  flood_probability : Option ℚ := none
  tide_level : Option ℚ := none
  wave_height : Option ℚ := none
  storm_intensity : Option ℚ := none
  wind_speed : Option ℚ := none
  pressure : Option ℚ := none
deriving DecidableEq, Repr

/-- `AlertService._calculate_severity` (alert_service.py lines 750-777):
a type outside the threshold table yields `"medium"`, otherwise the
type-relevant measurement is bucketed against the cutoffs. -/
def calculate_severity (alert_type : Option String) (values : AlertValues) : String :=
  match alert_type with
  | none => "medium"
  | some t =>
    match alert_thresholds t with
    | none => "medium"
    | some th =>
      let value? : Option ℚ :=
        if t = "flood" then some (values.flood_probability.getD 0)
        else if t = "tide" then some (values.tide_level.getD 0)
        else if t = "wave" then some (values.wave_height.getD 0)
        else if t = "storm" then some (values.storm_intensity.getD 0)
        else none
      match value? with
      | none => "medium"
      | some value =>
        if th.critical ≤ value then "critical"
        else if th.high ≤ value then "high"
        else if th.medium ≤ value then "medium"
        else "low"

/-- A `values` dictionary holding just the measurement `_calculate_severity`
reads for the given alert type. -/
def values_for : String → ℚ → AlertValues
  | "flood", v => { flood_probability := some v }
  | "tide", v => { tide_level := some v }
  | "wave", v => { wave_height := some v }
  | "storm", v => { storm_intensity := some v }
  | _, _ => {}

/-- The `location` sub-dictionary of an alert-creation payload. -/
structure LocationData where
  name : Option String := none
  latitude : Option ℚ := none
  longitude : Option ℚ := none
deriving DecidableEq, Repr

/-- The `alert_data` payload accepted by `AlertService.create_alert`
(defaults as in the `.get(...)` calls of lines 63-79). -/
structure AlertData where
  alert_type : Option String := none
  values : AlertValues := {}
  title : Option String := none
  description : Option String := none
  location : LocationData := {}
  affected_radius_km : ℚ := 10
  source : String := "system"
  source_id : Option String := none
  expires_at : Option ℚ := none
deriving DecidableEq, Repr

/-- An alert row as read and written by the alert service.  Timestamps are
rationals measured in hours. -/
structure AlertRec where
  id : String
  alert_type : Option String
  severity : String
  title : Option String
  description : Option String
  location_name : Option String
  latitude : Option ℚ
  longitude : Option ℚ
  affected_radius_km : ℚ
  source : String
  source_id : Option String
  expires_at : Option ℚ
  created_at : ℚ
  is_active : Bool
  acknowledged_at : Option ℚ := none
  acknowledged_by : Option String := none
deriving DecidableEq, Repr

/-- The alert row built by `AlertService.create_alert` (lines 63-79): the id
is the fresh UUID and `now` the value of `datetime.utcnow()`. -/
def create_alert_record (id : String) (now : ℚ) (d : AlertData) : AlertRec :=
  { id := id
    alert_type := d.alert_type
    severity := calculate_severity d.alert_type d.values
    title := d.title
    description := d.description
    location_name := d.location.name
    latitude := d.location.latitude
    longitude := d.location.longitude
    affected_radius_km := d.affected_radius_km
    source := d.source
    source_id := d.source_id
    expires_at := d.expires_at
    created_at := now
    is_active := true }

/-- An `alert_history` row as written by `acknowledge_alert`. -/
structure HistoryRec where
  alert_id : String
  user_id : Option String
  action : String
  timestamp : ℚ
deriving DecidableEq, Repr

/-- The alert-side database state: the `alerts` table and the
`alert_history` table. -/
structure AlertDb where
  alerts : List AlertRec
  history : List HistoryRec := []
deriving DecidableEq, Repr

/-!  ### The ORM model declarations (models/alert.py)

The columns the service code reads and writes do not all exist on the
declared models.  The SQLAlchemy declarative constructor raises `TypeError`
at the first keyword argument that is not an attribute of the model class,
and evaluating a missing column attribute (`Alert.source_id`,
`alert.source`) raises `AttributeError`; the lists below transcribe the
declarations so those failures can be derived rather than assumed.  -/

/-- The columns declared on the `Alert` model (models/alert.py lines 6-79).
Note there is no `source`, `source_id`, `metadata` or `resolved_at`
column. -/
def alert_columns : List String :=
  ["id", "alert_type", "severity", "priority", "title", "description",
   "detailed_message", "latitude", "longitude", "location_name",
   "affected_radius_km", "region", "issued_at", "effective_at", "expires_at",
   "predicted_peak_time", "expected_duration_hours", "population_at_risk",
   "infrastructure_impact", "economic_impact_estimate", "affected_area_km2",
   "status", "is_active", "source_system", "data_sources", "confidence_score",
   "model_version", "verification_status", "verified_by", "verified_at",
   "acknowledged_by", "acknowledged_at", "acknowledgment_notes",
   "recommendations", "emergency_contacts", "evacuation_zones", "tags",
   "external_alert_ids", "created_at", "updated_at"]

/-- The attributes visible on the `Alert` class: its columns plus the
declarative-base `metadata` object (`hasattr(Alert, "metadata")` is true even
though `metadata` is no column, so that keyword is accepted). -/
def alert_class_attributes : List String := alert_columns ++ ["metadata"]

/-- The columns declared on the `AlertHistory` model
(models/alert.py lines 183-208).  Note there is no `user_id` and no
`details` column. -/
def alert_history_columns : List String :=
  ["id", "alert_id", "action", "field_changed", "old_value", "new_value",
   "changed_by", "change_reason", "change_source", "ip_address", "user_agent",
   "timestamp"]

/-- The keyword arguments of the `Alert(...)` call in `create_alert`
(alert_service.py lines 63-79), in source order. -/
def create_alert_kwargs : List String :=
  ["id", "alert_type", "severity", "title", "description", "location_name",
   "latitude", "longitude", "affected_radius_km", "source", "source_id",
   "metadata", "expires_at", "created_at", "is_active"]

/-- The keyword arguments of the `AlertHistory(...)` call in
`acknowledge_alert` (alert_service.py lines 270-276), in source order. -/
def ack_history_kwargs : List String :=
  ["alert_id", "user_id", "action", "timestamp", "details"]

/-- The SQLAlchemy declarative constructor check: the first keyword argument
that is not an attribute of the model class raises `TypeError`. -/
def first_invalid_kwarg (attrs kwargs : List String) : Option String :=
  kwargs.find? (fun k => !(attrs.contains k))

/-- The result dictionary of `create_alert`, reduced to the fields the
callers read. -/
structure CreateAlertResult where
  success : Bool
  error : Option String := none
  alert_id : Option String := none
deriving DecidableEq, Repr

/-- `AlertService.create_alert` (lines 50-116): the `Alert(...)` constructor
validates its keywords against the model class; `source` is no attribute of
`Alert`, so the constructor raises `TypeError`, the `except` handler rolls
the session back, and no row is stored.  The (unreachable) valid path would
commit the constructed row; the notification fan-out that would follow it is
elided. -/
def create_alert_attempt (id : String) (now : ℚ) (d : AlertData) (db : AlertDb) :
    CreateAlertResult × AlertDb :=
  match first_invalid_kwarg alert_class_attributes create_alert_kwargs with
  | some k =>
    ({ success := false,
       error := some ("TypeError: " ++ k ++ " is an invalid keyword argument for Alert") },
     db)
  | none =>
    ({ success := true, alert_id := some id },
     { db with alerts := db.alerts ++ [create_alert_record id now d] })

/-- The result dictionary of `AlertService.acknowledge_alert`. -/
structure AckResult where
  success : Bool
  error : Option String := none
  acknowledged_at : Option ℚ := none
  acknowledged_by : Option String := none
deriving DecidableEq, Repr

/-- Replace the first element satisfying `p` (SQLAlchemy `.first()` returns the
first matching row and the mutation is committed back in place). -/
def replaceFirst (p : α → Bool) (f : α → α) : List α → List α
  | [] => []
  | x :: xs => if p x then f x :: xs else x :: replaceFirst p f xs

/-- `AlertService.acknowledge_alert` (alert_service.py lines 248-294).  The
not-found and already-acknowledged branches return errors with the state
untouched.  The remaining branch assigns `acknowledged_at` and
`acknowledged_by` in the session and then constructs
`AlertHistory(alert_id=..., user_id=..., action=..., timestamp=...,
details=...)`; the constructor validates its keywords against the model, and
`user_id` is no `AlertHistory` column, so it raises `TypeError` before
`db.commit()` — the `except` handler rolls the pending assignments back and
returns the error.  The valid-keywords path (unreachable for this model)
would commit the update and the history row. -/
def acknowledge_alert (alert_id user_id : String) (now : ℚ) (db : AlertDb) :
    AckResult × AlertDb :=
  match db.alerts.find? (fun a => a.id == alert_id) with
  | none => ({ success := false, error := some "Alert not found" }, db)
  | some a =>
    if a.acknowledged_at.isSome then
      ({ success := false, error := some "Alert already acknowledged" }, db)
    else
      match first_invalid_kwarg alert_history_columns ack_history_kwargs with
      | some k =>
        ({ success := false,
           error := some ("TypeError: " ++ k ++ " is an invalid keyword argument for AlertHistory") },
         db)
      | none =>
        ({ success := true, acknowledged_at := some now, acknowledged_by := some user_id },
         { alerts := replaceFirst (fun b => b.id == alert_id)
             (fun b => { b with acknowledged_at := some now, acknowledged_by := some user_id })
             db.alerts
           history := db.history ++ [⟨alert_id, some user_id, "acknowledged", now⟩] })

/-! ### `get_alerts` filtering (alert_service.py lines 118-162) -/

/-- The `location` filter dictionary of `get_alerts`. -/
structure LocationFilter where
  latitude : Option ℚ := none
  longitude : Option ℚ := none
  radius_km : ℚ := 50
deriving DecidableEq, Repr

/-- The `filters` dictionary of `get_alerts`. -/
structure AlertFilters where
  alert_type : Option String := none
  severity : Option String := none
  is_active : Option Bool := none
  location : Option LocationFilter := none
  start_date : Option ℚ := none
  end_date : Option ℚ := none
deriving DecidableEq, Repr

/-- The bounding-box WHERE clause added by `get_alerts` when a location filter
with truthy latitude and longitude is present (lines 139-149): a SQL
`BETWEEN` on a NULL column matches nothing. -/
def location_filter_pred (lf : LocationFilter) (a : AlertRec) : Bool :=
  if truthyQ lf.latitude && truthyQ lf.longitude then
    let lat := lf.latitude.getD 0
    let lon := lf.longitude.getD 0
    let lat_delta := lf.radius_km / 111
    let lon_delta := lf.radius_km / (if lat ≠ 0 then 111 * |lat| else 111)
    (match a.latitude with
     | none => false
     | some x => decide (lat - lat_delta ≤ x ∧ x ≤ lat + lat_delta)) &&
    (match a.longitude with
     | none => false
     | some y => decide (lon - lon_delta ≤ y ∧ y ≤ lon + lon_delta))
  else true

/-- The full WHERE clause assembled by `get_alerts` (lines 121-155). -/
def passes_filters (f : AlertFilters) (a : AlertRec) : Bool :=
  (if truthyS f.alert_type then a.alert_type == f.alert_type else true) &&
  (if truthyS f.severity then some a.severity == f.severity else true) &&
  (match f.is_active with
   | none => true
   | some b => a.is_active == b) &&
  (match f.location with
   | none => true
   | some lf => location_filter_pred lf a) &&
  (match f.start_date with
   | none => true
   | some s => decide (s ≤ a.created_at)) &&
  (match f.end_date with
   | none => true
   | some e => decide (a.created_at ≤ e))

/-- The rows satisfying the WHERE clause of the `get_alerts` query — the SQL
query itself only touches declared columns and is well-formed.  This is not
what `get_alerts` returns: its Python response loop fails afterwards (see
`get_alerts`). -/
def get_alerts_matching (f : AlertFilters) (alerts : List AlertRec) : List AlertRec :=
  alerts.filter (passes_filters f)

/-- The instance attributes the response loop of `get_alerts`
(lines 167-185) reads from each row, in evaluation order.  `source` and
`resolved_at` are not columns of the `Alert` model. -/
def get_alerts_read_attrs : List String :=
  ["id", "alert_type", "severity", "title", "description", "location_name",
   "latitude", "longitude", "affected_radius_km", "source", "created_at",
   "expires_at", "is_active", "acknowledged_at", "resolved_at"]

/-- Serializing one returned row: reading the first attribute the model does
not declare raises `AttributeError`. -/
def serialize_alert (a : AlertRec) : Except String AlertRec :=
  match get_alerts_read_attrs.find? (fun n => !(alert_class_attributes.contains n)) with
  | some n => Except.error ("AttributeError: " ++ n)
  | none => Except.ok a

/-- The `for alert in alerts:` response loop of `get_alerts`: an
`AttributeError` raised mid-loop aborts it. -/
def serialize_loop : List AlertRec → Except String (List AlertRec)
  | [] => Except.ok []
  | a :: rest =>
    match serialize_alert a with
    | Except.error e => Except.error e
    | Except.ok r =>
      match serialize_loop rest with
      | Except.error e => Except.error e
      | Except.ok rs => Except.ok (r :: rs)

/-- `AlertService.get_alerts` (lines 118-200): the WHERE clause, then the
response loop; the function-level `except` turns any failure into `[]`.
Ordering and `limit` are elided — they cannot make an empty result nonempty
nor rescue the failing loop. -/
def get_alerts (f : AlertFilters) (alerts : List AlertRec) : List AlertRec :=
  match serialize_loop (get_alerts_matching f alerts) with
  | Except.ok l => l
  | Except.error _ => []

/-! ### `_find_affected_users` (alert_service.py lines 779-845) -/

/-- A `users` row, restricted to the columns the services read. -/
structure UserRec where
  id : String
  email : Option String := none
  full_name : Option String := none
  device_token : Option String := none
  is_active : Bool := true
deriving DecidableEq, Repr

/-- A `user_locations` row. -/
structure UserLocRec where
  user_id : String
  latitude : Option ℚ := none
  longitude : Option ℚ := none
deriving DecidableEq, Repr

/-- A user-preferences row, restricted to the attributes the services read. -/
structure PrefsRec where
  user_id : String
  notification_methods : Option (List String) := none
  phone_number : Option String := none
  alert_types : List String := []
  severity_threshold : String := "medium"
deriving DecidableEq, Repr

/-- The user-side database state. -/
structure UsersDb where
  users : List UserRec
  user_locations : List UserLocRec
  user_prefs : List PrefsRec
deriving DecidableEq, Repr

/-- The `severity_levels` ladder of `_find_affected_users` (line 810). -/
def severity_levels : List String := ["low", "medium", "high", "critical"]

/-- `list.index`-style lookup used to locate the alert severity in the
ladder. -/
def list_index_of (s : String) : List String → Option ℕ
  | [] => none
  | x :: xs => if x = s then some 0 else (list_index_of s xs).map (· + 1)

/-- The OR-of-equalities severity filter of `_find_affected_users`
(lines 809-821): a user passes when their threshold is at or below the alert
severity; when the severity is not on the ladder no filter is added. -/
def sev_pref_ok (severity threshold : String) : Bool :=
  match list_index_of severity severity_levels with
  | none => true
  | some i => decide (threshold ∈ severity_levels.take (i + 1))

/-- The joined bounding-box query of `_find_affected_users` (lines 795-823):
ids of active users having a location row inside the box and a preferences
row passing the type and severity filters. -/
def box_user_ids (db : UsersDb) (lat lon lat_delta lon_delta : ℚ)
    (alert_type : Option String) (severity : String) : List String :=
  db.users.flatMap fun u =>
    db.user_locations.flatMap fun l =>
      db.user_prefs.flatMap fun p =>
        if (l.user_id == u.id && p.user_id == u.id &&
            (match l.latitude with
             | none => false
             | some x => decide (lat - lat_delta ≤ x ∧ x ≤ lat + lat_delta)) &&
            (match l.longitude with
             | none => false
             | some y => decide (lon - lon_delta ≤ y ∧ y ≤ lon + lon_delta)) &&
            u.is_active &&
            (!truthyS alert_type || decide (alert_type.getD "" ∈ p.alert_types)) &&
            sev_pref_ok severity p.severity_threshold)
        then [u.id] else []

/-- `AlertService._find_affected_users`.  `dist la lo x y` stands for
`geopy.distance.geodesic((la, lo), (x, y)).kilometers`; the geodesic itself is
an external library call, so it is a parameter. -/
def find_affected_users (dist : ℚ → ℚ → ℚ → ℚ → ℚ)
    (location : LocationData) (radius_km : ℚ) (alert_type : Option String)
    (severity : String) (db : UsersDb) : List String :=
  if truthyQ location.latitude && truthyQ location.longitude then
    let lat := location.latitude.getD 0
    let lon := location.longitude.getD 0
    let lat_delta := radius_km / 111
    let lon_delta := radius_km / (if lat ≠ 0 then 111 * |lat| else 111)
    let user_ids := box_user_ids db lat lon lat_delta lon_delta alert_type severity
    user_ids.filter fun uid =>
      match db.user_locations.find? (fun l => l.user_id == uid) with
      | none => false
      | some l =>
        truthyQ l.latitude && truthyQ l.longitude &&
          decide (dist lat lon (l.latitude.getD 0) (l.longitude.getD 0) ≤ radius_km)
  else []

/-! ### Notification fan-out (alert_service.py lines 847-883,
notification_service.py lines 275-393) -/

/-- Outcome of one `send_alert_notification` task inside
`asyncio.gather(..., return_exceptions=True)`: a success dictionary, a
failure dictionary, or a raised exception. -/
inductive UserOutcome
  | ok
  | err
  | exc
deriving DecidableEq, Repr

/-- One step of the counting loop of `NotificationService.send_bulk_alert`
(lines 372-385): a success dictionary counts as successful, a failure
dictionary or a gathered exception as failed. -/
def bulk_count_step (res : String → UserOutcome) (acc : ℕ × ℕ) (uid : String) : ℕ × ℕ :=
  match res uid with
  | .ok => (acc.1 + 1, acc.2)
  | .err => (acc.1, acc.2 + 1)
  | .exc => (acc.1, acc.2 + 1)

/-- The `successful` / `failed` counters returned by
`NotificationService.send_bulk_alert` (lines 356-393): one gathered result
per user of the batch. -/
def send_bulk_alert_counts (res : String → UserOutcome) (user_ids : List String) : ℕ × ℕ :=
  user_ids.foldl (bulk_count_step res) (0, 0)

/-- One iteration of the batch loop of `_send_alert_notifications`
(lines 872-881): a batch whose `send_bulk_alert` call raises adds the whole
batch to `failed`, otherwise the bulk counts are accumulated. -/
def batch_step (res : String → UserOutcome) (batchExc : List String → Bool)
    (acc : ℕ × ℕ) (batch : List String) : ℕ × ℕ :=
  if batchExc batch then (acc.1, acc.2 + batch.length)
  else
    let r := send_bulk_alert_counts res batch
    (acc.1 + r.1, acc.2 + r.2)

/-- `user_ids[i:i+10]` for `i = 0, 10, 20, ...`: the batches of size 10. -/
def chunks10 : List String → List (List String)
  | [] => []
  | x :: xs => (x :: xs.take 9) :: chunks10 (xs.drop 9)
termination_by l => l.length
decreasing_by
  simp only [List.length_drop, List.length_cons]
  omega

/-- `AlertService._send_alert_notifications` (lines 847-883), reduced to the
`successful` / `failed` counters it returns.  `res` gives each per-user
per-task outcome, `batchExc` tells which whole-batch calls raise. -/
def send_alert_notifications (res : String → UserOutcome)
    (batchExc : List String → Bool) (user_ids : List String) : ℕ × ℕ :=
  if user_ids.isEmpty then (0, 0)
  else (chunks10 user_ids).foldl (batch_step res batchExc) (0, 0)

/-- An `alert_notifications` row as written by
`NotificationService.send_alert_notification` (lines 331-342), together with
the schema-declared retry columns and their defaults
(models/alert.py lines 106-108). -/
structure AlertNotificationRec where
  alert_id : Option String
  user_id : String
  notification_type : String
  delivery_method : String
  status : String
  sent_at : ℚ
  delivery_details : List (String × Bool)
  retry_count : ℕ := 0
  max_retries : ℕ := 3
  next_retry_at : Option ℚ := none
deriving DecidableEq, Repr

/-- `NotificationService.send_alert_notification` (lines 275-342), reduced to
the row it inserts.  `emailOk`, `smsOk`, `pushOk` are the delivery outcomes of
the three channel sends. -/
def send_alert_notification_row (alert_id : Option String) (user_id : String)
    (u : UserRec) (p : PrefsRec) (emailOk smsOk pushOk : Bool) (now : ℚ) :
    AlertNotificationRec :=
  let methods : List String :=
    match p.notification_methods with
    | none => ["email"]
    | some [] => ["email"]
    | some ms => ms
  let results : List (String × Bool) :=
    (if "email" ∈ methods ∧ truthyS u.email then [("email", emailOk)] else []) ++
    (if "sms" ∈ methods ∧ truthyS p.phone_number then [("sms", smsOk)] else []) ++
    (if "push" ∈ methods ∧ truthyS u.device_token then [("push", pushOk)] else [])
  { alert_id := alert_id
    user_id := user_id
    notification_type := "multi"
    delivery_method := String.intercalate "," methods
    status := if results.any (fun r => r.2) then "sent" else "failed"
    sent_at := now
    delivery_details := results }

/-! ### Monitoring-check alert creation (alert_service.py lines 539-701,
902-995) -/

/-- A `monitoring_stations` row (models/monitoring.py: id, name, latitude and
longitude are all non-nullable). -/
structure Station where
  id : String
  name : String
  latitude : ℚ
  longitude : ℚ
deriving DecidableEq, Repr

/-- The latest-readings dictionary assembled by `_get_latest_station_data`,
merged with the station fields by `_check_alert_conditions`. -/
structure StationData where
  station_name : Option String := none
  latitude : Option ℚ := none
  longitude : Option ℚ := none
  tide_level : Option ℚ := none
  wave_height : Option ℚ := none
  wind_speed_kmh : Option ℚ := none
  atmospheric_pressure : Option ℚ := none
deriving DecidableEq, Repr

/-- The `station_data = {"station_name": ..., "latitude": ..., "longitude": ...,
**data}` merge performed in `_check_alert_conditions`. -/
def station_data_of (st : Station) (d : StationData) : StationData :=
  { d with
    station_name := some st.name
    latitude := some st.latitude
    longitude := some st.longitude }

/-- The payload built by `_create_flood_alert` (lines 902-924); the textual
description formatting is elided. -/
def flood_alert_data (sd : StationData) (flood_probability : ℚ) (now : ℚ) : AlertData :=
  { alert_type := some "flood"
    title := some "Flood Risk Alert"
    description := some "Expected conditions may lead to coastal flooding."
    location := { name := some (sd.station_name.getD "Monitoring Station")
                  latitude := sd.latitude
                  longitude := sd.longitude }
    affected_radius_km := 15
    values := { flood_probability := some flood_probability }
    expires_at := some (now + 12) }

/-- The payload built by `_create_tide_alert` (lines 926-946). -/
def tide_alert_data (sd : StationData) (now : ℚ) : AlertData :=
  { alert_type := some "tide"
    title := some "High Tide Alert"
    description := some "Coastal areas may experience elevated water levels."
    location := { name := some (sd.station_name.getD "Monitoring Station")
                  latitude := sd.latitude
                  longitude := sd.longitude }
    affected_radius_km := 10
    values := { tide_level := some (sd.tide_level.getD 0) }
    expires_at := some (now + 6) }

/-- The payload built by `_create_wave_alert` (lines 948-968). -/
def wave_alert_data (sd : StationData) (now : ℚ) : AlertData :=
  { alert_type := some "wave"
    title := some "High Wave Alert"
    description := some "Dangerous conditions for coastal activities."
    location := { name := some (sd.station_name.getD "Monitoring Station")
                  latitude := sd.latitude
                  longitude := sd.longitude }
    affected_radius_km := 8
    values := { wave_height := some (sd.wave_height.getD 0) }
    expires_at := some (now + 8) }

/-- The payload built by `_create_storm_alert` (lines 970-995). -/
def storm_alert_data (sd : StationData) (now : ℚ) : AlertData :=
  let wind_speed := sd.wind_speed_kmh.getD 0
  let pressure := sd.atmospheric_pressure.getD 1013
  { alert_type := some "storm"
    title := some "Storm Conditions Alert"
    description := some "Severe weather detected. Take precautions."
    location := { name := some (sd.station_name.getD "Monitoring Station")
                  latitude := sd.latitude
                  longitude := sd.longitude }
    affected_radius_km := 25
    values := { wind_speed := some wind_speed
                pressure := some pressure
                storm_intensity := some (min (wind_speed / 100) 1) }
    expires_at := some (now + 24) }

/-- The payload built by `_check_system_wide_conditions` (lines 678-695) when
fewer than half the stations report; the station counters only feed the
description and metadata. -/
def system_alert_data (now : ℚ) : AlertData :=
  { alert_type := some "system"
    title := some "System Monitoring Alert"
    description := some "Multiple monitoring stations offline."
    location := { name := some "System Wide"
                  latitude := some 25.7617
                  longitude := some (-80.1918) }
    affected_radius_km := 500
    source := "monitoring_system"
    expires_at := some (now + 4) }

/-- The alert-creation payloads the monitoring loop can hand to
`create_alert`: the four per-station hazard payloads of
`_check_alert_conditions` and the system-wide payload of
`_check_system_wide_conditions`. -/
inductive MonitoringAlertData : AlertData → Prop where
  | flood (st : Station) (d : StationData) (fp : ℚ) (now : ℚ) :
      MonitoringAlertData (flood_alert_data (station_data_of st d) fp now)
  | tide (st : Station) (d : StationData) (now : ℚ) :
      MonitoringAlertData (tide_alert_data (station_data_of st d) now)
  | wave (st : Station) (d : StationData) (now : ℚ) :
      MonitoringAlertData (wave_alert_data (station_data_of st d) now)
  | storm (st : Station) (d : StationData) (now : ℚ) :
      MonitoringAlertData (storm_alert_data (station_data_of st d) now)
  | system (now : ℚ) :
      MonitoringAlertData (system_alert_data now)

/-- The `medium` cutoff of a threshold-table row, as read by
`self.alert_thresholds[t]["medium"]`. -/
def threshold_medium (t : String) : ℚ :=
  match alert_thresholds t with
  | some th => th.medium
  | none => 0

/-- Building the recent-duplicate filter of `_check_alert_conditions`
(e.g. lines 553-560): evaluating the class attribute `Alert.source_id`
raises `AttributeError`, because the `Alert` model declares no `source_id`
column. -/
def dedup_filter_expr : Except String Unit :=
  if alert_class_attributes.contains "source_id" then Except.ok ()
  else Except.error "AttributeError: type object Alert has no attribute source_id"

/-- One hazard branch of `_check_alert_conditions`: when triggered it builds
the dedup query — whose `Alert.source_id` lookup raises — and, were that
reachable, would skip on a recent active duplicate for the station or hand
the payload to `create_alert`. -/
def check_branch (triggered : Bool) (payload : AlertData)
    (station_id alert_type new_id : String) (now : ℚ) (db : AlertDb) :
    Except String AlertDb :=
  if triggered then
    match dedup_filter_expr with
    | Except.error e => Except.error e
    | Except.ok _ =>
      match db.alerts.find? (fun a =>
          decide (a.alert_type = some alert_type) &&
          decide (a.source_id = some station_id) &&
          decide (now - 2 ≤ a.created_at) && a.is_active) with
      | some _ => Except.ok db
      | none => Except.ok (create_alert_attempt new_id now payload db).2
  else Except.ok db

/-- The flood branch guard (lines 548-551): readings present and the
predicted flood probability above 0.3. -/
def flood_branch_triggered (d : StationData) (flood_prob : ℚ) : Bool :=
  (truthyQ d.tide_level || truthyQ d.wave_height) && decide ((0.3 : ℚ) < flood_prob)

/-- The tide branch guard (line 574). -/
def tide_branch_triggered (d : StationData) : Bool :=
  decide (threshold_medium "tide" < d.tide_level.getD 0)

/-- The wave branch guard (line 596). -/
def wave_branch_triggered (d : StationData) : Bool :=
  decide (threshold_medium "wave" < d.wave_height.getD 0)

/-- The storm branch guard (lines 618-619). -/
def storm_branch_triggered (d : StationData) : Bool :=
  decide ((60 : ℚ) < d.wind_speed_kmh.getD 0) ||
    decide (d.atmospheric_pressure.getD 1013 < 990)

/-- `AlertService._check_alert_conditions` (lines 539-644): the four hazard
branches run in order inside a single `try`; the first triggered branch
raises at its dedup query and the `except` handler returns with nothing
committed (no branch commits anything before its dedup query evaluates).
`flood_prob` is the flood probability `predict_flood_risk` returns for the
readings; `ids` are the fresh UUIDs the four creations would use. -/
def check_alert_conditions (st : Station) (d : StationData) (flood_prob : ℚ)
    (ids : String × String × String × String) (now : ℚ) (db : AlertDb) : AlertDb :=
  let sd := station_data_of st d
  let run : Except String AlertDb := do
    let db1 ← check_branch (flood_branch_triggered d flood_prob)
      (flood_alert_data sd flood_prob now) st.id "flood" ids.1 now db
    let db2 ← check_branch (tide_branch_triggered d)
      (tide_alert_data sd now) st.id "tide" ids.2.1 now db1
    let db3 ← check_branch (wave_branch_triggered d)
      (wave_alert_data sd now) st.id "wave" ids.2.2.1 now db2
    check_branch (storm_branch_triggered d)
      (storm_alert_data sd now) st.id "storm" ids.2.2.2 now db3
  match run with
  | Except.ok db4 => db4
  | Except.error _ => db

/-! ### Flood prediction (ml_service.py lines 20-32, 106-209) -/

/-- The `input_data` read by `_simulate_flood_prediction`. -/
structure MLInput where
  tide_level : Option ℚ := none
  wave_height : Option ℚ := none
  storm_surge : Option ℚ := none
  rainfall_mm : Option ℚ := none
deriving DecidableEq, Repr

/-- `FloodPredictionModel._simulate_flood_prediction` (lines 191-209);
`noise` is the `random.uniform(-0.1, 0.1)` draw. -/
def simulate_flood_prediction (data : MLInput) (noise : ℚ) : ℚ :=
  let tide_factor := min (data.tide_level.getD 0 / 3) 1 * 0.3
  let wave_factor := min (data.wave_height.getD 0 / 5) 1 * 0.25
  let surge_factor := min (data.storm_surge.getD 0 / 2) 1 * 0.3
  let rain_factor := min (data.rainfall_mm.getD 0 / 50) 1 * 0.15
  let probability := tide_factor + wave_factor + surge_factor + rain_factor + noise
  max 0 (min 1 probability)

/-- Python half-even rounding of a rational to the nearest integer. -/
def round_half_even (q : ℚ) : ℤ :=
  if Int.fract q < 1 / 2 then ⌊q⌋
  else if 1 / 2 < Int.fract q then ⌊q⌋ + 1
  else if ⌊q⌋ % 2 = 0 then ⌊q⌋ else ⌊q⌋ + 1

/-- Python `round(q, 3)` on an exact rational. -/
def pyRound3 (q : ℚ) : ℚ := (round_half_even (q * 1000) : ℚ) / 1000

/-- The prediction dictionary returned by `predict_flood_risk`, restricted to
the fields the simulation branch fills deterministically. -/
structure FloodPrediction where
  flood_probability : ℚ
  risk_level : String
  confidence_score : ℚ
  model_version : String
  model_type : String
deriving DecidableEq, Repr

/-- The flood-model state set up in `FloodPredictionModel.__init__`
(lines 20-32): `is_trained` starts `False`. -/
structure FloodModelState where
  is_trained : Bool := false
  model_version : String := "1.0.0"
deriving DecidableEq, Repr

/-- `FloodPredictionModel.predict_flood_risk` (lines 106-189) for an
untrained model: the LSTM branch is guarded by `is_trained`, so the
simulation branch runs; `noise` and `conf` are the two random draws
(`random.uniform(-0.1, 0.1)` and `random.uniform(0.75, 0.95)`).  The trained
branch calls into TensorFlow and is out of reach of this state, hence
`none`. -/
def predict_flood_risk_sim (st : FloodModelState) (data : MLInput)
    (noise conf : ℚ) : Option FloodPrediction :=
  if st.is_trained then none
  else
    let flood_probability := simulate_flood_prediction data noise
    let risk_level :=
      if flood_probability < 0.2 then "low"
      else if flood_probability < 0.5 then "medium"
      else if flood_probability < 0.8 then "high"
      else "critical"
    some { flood_probability := pyRound3 flood_probability
           risk_level := risk_level
           confidence_score := conf
           model_version := st.model_version
           model_type := "simulation" }

/-- The flood-probability formula as the claim states it: the weighted sum of
the four saturated factors plus the noise, clamped to `[0, 1]` (no
rounding). -/
def claimed_flood_probability (data : MLInput) (noise : ℚ) : ℚ :=
  max 0 (min 1
    (0.3 * min (data.tide_level.getD 0 / 3) 1 +
     0.25 * min (data.wave_height.getD 0 / 5) 1 +
     0.3 * min (data.storm_surge.getD 0 / 2) 1 +
     0.15 * min (data.rainfall_mm.getD 0 / 50) 1 + noise))

/-! ### Concrete fixtures used by the witness theorems -/

/-- A one-user database for the affected-users witness. -/
def udbW : UsersDb :=
  { users := [{ id := "u1", email := some "a@example.com", is_active := true }]
    user_locations := [{ user_id := "u1", latitude := some 1, longitude := some 1 }]
    user_prefs := [{ user_id := "u1", alert_types := ["tide"], severity_threshold := "low" }] }

/-- A trivial distance oracle for the affected-users witness. -/
def distW : ℚ → ℚ → ℚ → ℚ → ℚ := fun _ _ _ _ => 1

/-- Alert location used in the affected-users witness. -/
def locW : LocationData := { latitude := some 1, longitude := some 1 }

/-- An alert inside the witness bounding box. -/
def alertW : AlertRec :=
  { id := "b1"
    alert_type := some "tide"
    severity := "medium"
    title := none
    description := none
    location_name := none
    latitude := some 1.5
    longitude := some 1.5
    affected_radius_km := 10
    source := "system"
    source_id := none
    expires_at := none
    created_at := 0
    is_active := true }

/-- The filters used in the `get_alerts` witness: only a location filter. -/
def filtersW : AlertFilters :=
  { location := some { latitude := some 1, longitude := some 1, radius_km := 111 } }

/-- An unacknowledged alert for the acknowledge witness. -/
def alertAckW : AlertRec :=
  { id := "a1"
    alert_type := some "tide"
    severity := "medium"
    title := none
    description := none
    location_name := none
    latitude := some 1
    longitude := some 2
    affected_radius_km := 10
    source := "system"
    source_id := none
    expires_at := none
    created_at := 0
    is_active := true }

/-- Database holding just the unacknowledged alert. -/
def dbAckW : AlertDb := { alerts := [alertAckW], history := [] }

/-!  ## Theorems  -/

/-- The three-cutoff if-chain of `_calculate_severity` buckets a value into
the four severity names. -/
theorem bucket_iff (a b c v : ℚ) (hab : a < b) (hbc : b < c) :
    ((if c ≤ v then "critical" else if b ≤ v then "high"
      else if a ≤ v then "medium" else "low") = "critical" ↔ c ≤ v) ∧
    ((if c ≤ v then "critical" else if b ≤ v then "high"
      else if a ≤ v then "medium" else "low") = "high" ↔ b ≤ v ∧ v < c) ∧
    ((if c ≤ v then "critical" else if b ≤ v then "high"
      else if a ≤ v then "medium" else "low") = "medium" ↔ a ≤ v ∧ v < b) ∧
    ((if c ≤ v then "critical" else if b ≤ v then "high"
      else if a ≤ v then "medium" else "low") = "low" ↔ v < a) := by
  split_ifs with h1 h2 h3
  · exact ⟨iff_of_true rfl h1,
      iff_of_false (by decide) (fun h => absurd h1 (not_le.mpr h.2)),
      iff_of_false (by decide) (fun h => absurd h1 (not_le.mpr (h.2.trans hbc))),
      iff_of_false (by decide) (fun h => absurd h1 (not_le.mpr ((h.trans hab).trans hbc)))⟩
  · exact ⟨iff_of_false (by decide) h1,
      iff_of_true rfl ⟨h2, not_le.mp h1⟩,
      iff_of_false (by decide) (fun h => absurd h2 (not_le.mpr h.2)),
      iff_of_false (by decide) (fun h => absurd h2 (not_le.mpr (h.trans hab)))⟩
  · exact ⟨iff_of_false (by decide) h1,
      iff_of_false (by decide) (fun h => h2 h.1),
      iff_of_true rfl ⟨h3, not_le.mp h2⟩,
      iff_of_false (by decide) (fun h => absurd h3 (not_le.mpr h))⟩
  · exact ⟨iff_of_false (by decide) h1,
      iff_of_false (by decide) (fun h => h2 h.1),
      iff_of_false (by decide) (fun h => h3 h.1),
      iff_of_true rfl (not_le.mp h3)⟩

/-- The threshold table holds exactly the four hazard types, each with its
cutoff row. -/
theorem alert_thresholds_cases (t : String) (th : Thresholds)
    (ht : alert_thresholds t = some th) :
    (t = "flood" ∧ th = ⟨0.2, 0.4, 0.7, 0.9⟩) ∨
    (t = "tide" ∧ th = ⟨2.0, 2.5, 3.0, 3.5⟩) ∨
    (t = "wave" ∧ th = ⟨2.0, 3.0, 4.0, 5.0⟩) ∨
    (t = "storm" ∧ th = ⟨0.3, 0.6, 0.8, 1.0⟩) := by
  unfold alert_thresholds at ht
  split at ht <;> simp_all

/-- `_calculate_severity` on the flood table row, evaluated. -/
theorem cs_flood_eval (v : ℚ) :
    calculate_severity (some "flood") (values_for "flood" v) =
      if (0.9 : ℚ) ≤ v then "critical" else if (0.7 : ℚ) ≤ v then "high"
      else if (0.4 : ℚ) ≤ v then "medium" else "low" := rfl

/-- `_calculate_severity` on the tide table row, evaluated. -/
theorem cs_tide_eval (v : ℚ) :
    calculate_severity (some "tide") (values_for "tide" v) =
      if (3.5 : ℚ) ≤ v then "critical" else if (3.0 : ℚ) ≤ v then "high"
      else if (2.5 : ℚ) ≤ v then "medium" else "low" := rfl

/-- `_calculate_severity` on the wave table row, evaluated. -/
theorem cs_wave_eval (v : ℚ) :
    calculate_severity (some "wave") (values_for "wave" v) =
      if (5.0 : ℚ) ≤ v then "critical" else if (4.0 : ℚ) ≤ v then "high"
      else if (3.0 : ℚ) ≤ v then "medium" else "low" := rfl

/-- `_calculate_severity` on the storm table row, evaluated. -/
theorem cs_storm_eval (v : ℚ) :
    calculate_severity (some "storm") (values_for "storm" v) =
      if (1.0 : ℚ) ≤ v then "critical" else if (0.8 : ℚ) ≤ v then "high"
      else if (0.6 : ℚ) ≤ v then "medium" else "low" := rfl

/-- C1: for every alert type in the threshold table and every value of that
type-relevant measurement, `_calculate_severity` returns `"critical"` iff
the value is at least the critical cutoff, `"high"` iff it is in
`[high, critical)`, `"medium"` iff it is in `[medium, high)`, and `"low"` iff
it is below the medium cutoff. -/
theorem calculate_severity_buckets (t : String) (th : Thresholds)
    (ht : alert_thresholds t = some th) (v : ℚ) :
    (calculate_severity (some t) (values_for t v) = "critical" ↔ th.critical ≤ v) ∧
    (calculate_severity (some t) (values_for t v) = "high" ↔ th.high ≤ v ∧ v < th.critical) ∧
    (calculate_severity (some t) (values_for t v) = "medium" ↔ th.medium ≤ v ∧ v < th.high) ∧
    (calculate_severity (some t) (values_for t v) = "low" ↔ v < th.medium) := by
  rcases alert_thresholds_cases t th ht with ⟨rfl, rfl⟩ | ⟨rfl, rfl⟩ | ⟨rfl, rfl⟩ | ⟨rfl, rfl⟩
  · rw [cs_flood_eval]; exact bucket_iff _ _ _ v (by norm_num) (by norm_num)
  · rw [cs_tide_eval]; exact bucket_iff _ _ _ v (by norm_num) (by norm_num)
  · rw [cs_wave_eval]; exact bucket_iff _ _ _ v (by norm_num) (by norm_num)
  · rw [cs_storm_eval]; exact bucket_iff _ _ _ v (by norm_num) (by norm_num)

/-- Witness for C1 at the tide row and tide level 3.2. -/
theorem calculate_severity_buckets_witness :
    alert_thresholds "tide" = some ⟨2.0, 2.5, 3.0, 3.5⟩ ∧
    (calculate_severity (some "tide") (values_for "tide" 3.2) = "high" ↔
      (3.0 : ℚ) ≤ 3.2 ∧ (3.2 : ℚ) < 3.5) :=
  ⟨rfl, (calculate_severity_buckets "tide" ⟨2.0, 2.5, 3.0, 3.5⟩ rfl 3.2).2.1⟩

/-- C9: for every alert type outside the threshold table (`None` included),
`_calculate_severity` returns `"medium"` whatever the values dictionary, and
an alert created through `create_alert` with such a type is stored with
severity `"medium"`. -/
theorem unrecognized_alert_type_medium (t : Option String)
    (h : ∀ s, t = some s → alert_thresholds s = none) :
    (∀ values, calculate_severity t values = "medium") ∧
    (∀ (d : AlertData) (id : String) (now : ℚ), d.alert_type = t →
      (create_alert_record id now d).severity = "medium") := by
  have key : ∀ values, calculate_severity t values = "medium" := by
    intro values
    cases t with
    | none => rfl
    | some s =>
      simp only [calculate_severity]
      rw [h s rfl]
  refine ⟨key, fun d id now hd => ?_⟩
  show calculate_severity d.alert_type d.values = "medium"
  rw [hd]
  exact key d.values

/-- Witness for C9 at the unrecognized type `"system"`. -/
theorem unrecognized_alert_type_medium_witness :
    calculate_severity (some "system") {} = "medium" :=
  (unrecognized_alert_type_medium (some "system")
    (fun s hs => by cases hs; rfl)).1 {}

/-- The bulk-count fold adds exactly one to one of the two counters per
user. -/
theorem bulk_foldl_sum (res : String → UserOutcome) (l : List String) (acc : ℕ × ℕ) :
    (l.foldl (bulk_count_step res) acc).1 + (l.foldl (bulk_count_step res) acc).2 =
      acc.1 + acc.2 + l.length := by
  induction l generalizing acc with
  | nil => simp
  | cons x xs ih =>
    rw [List.foldl_cons, ih]
    cases hx : res x <;> simp [bulk_count_step, hx] <;> omega

/-- `send_bulk_alert` accounts for every user of its batch exactly once. -/
theorem send_bulk_alert_counts_sum (res : String → UserOutcome) (l : List String) :
    (send_bulk_alert_counts res l).1 + (send_bulk_alert_counts res l).2 = l.length := by
  have h := bulk_foldl_sum res l (0, 0)
  simpa [send_bulk_alert_counts] using h

/-- The batch fold adds exactly the batch length to the two counters, whether
or not the batch call raises. -/
theorem batch_foldl_sum (res : String → UserOutcome) (bx : List String → Bool)
    (cs : List (List String)) (acc : ℕ × ℕ) :
    (cs.foldl (batch_step res bx) acc).1 + (cs.foldl (batch_step res bx) acc).2 =
      acc.1 + acc.2 + (cs.map List.length).sum := by
  induction cs generalizing acc with
  | nil => simp
  | cons b bs ih =>
    rw [List.foldl_cons, ih]
    have hr := send_bulk_alert_counts_sum res b
    by_cases hb : bx b = true <;> simp [batch_step, hb] <;> omega

/-- The size-10 batches of `_send_alert_notifications` partition the user
list. -/
theorem chunks10_length_sum (n : ℕ) (l : List String) (hl : l.length ≤ n) :
    ((chunks10 l).map List.length).sum = l.length := by
  induction n generalizing l with
  | zero =>
    have : l = [] := List.eq_nil_of_length_eq_zero (Nat.le_zero.mp hl)
    subst this
    simp [chunks10]
  | succ n ih =>
    cases l with
    | nil => simp [chunks10]
    | cons x xs =>
      rw [chunks10]
      simp only [List.map_cons, List.sum_cons, List.length_cons]
      rw [ih (xs.drop 9) (by
        simp only [List.length_cons] at hl
        simp only [List.length_drop]
        omega)]
      simp only [List.length_cons, List.length_take, List.length_drop]
      omega

/-- Wrapper of `chunks10_length_sum` at the length of the list itself. -/
theorem chunks10_sum (l : List String) : ((chunks10 l).map List.length).sum = l.length :=
  chunks10_length_sum l.length l le_rfl

/-- C5: `_send_alert_notifications` processes the user ids in batches of 10
and the `successful` and `failed` counters it returns always sum to the
number of targeted users — each user is counted exactly once, batch-level
exceptions included. -/
theorem send_alert_notifications_total (res : String → UserOutcome)
    (batchExc : List String → Bool) (user_ids : List String) :
    (send_alert_notifications res batchExc user_ids).1 +
      (send_alert_notifications res batchExc user_ids).2 = user_ids.length := by
  cases user_ids with
  | nil => rfl
  | cons x xs =>
    have h1 : send_alert_notifications res batchExc (x :: xs) =
        (chunks10 (x :: xs)).foldl (batch_step res batchExc) (0, 0) := rfl
    rw [h1, batch_foldl_sum, chunks10_sum]
    simp

/-- C6: the notification row inserted by
`NotificationService.send_alert_notification` always carries the schema
defaults for the retry columns — `retry_count = 0`, `max_retries = 3`,
`next_retry_at = NULL`; no service code path reads or writes them. -/
theorem alert_notification_retry_defaults (alert_id : Option String)
    (user_id : String) (u : UserRec) (p : PrefsRec)
    (emailOk smsOk pushOk : Bool) (now : ℚ) :
    (send_alert_notification_row alert_id user_id u p emailOk smsOk pushOk now).retry_count = 0 ∧
    (send_alert_notification_row alert_id user_id u p emailOk smsOk pushOk now).max_retries = 3 ∧
    (send_alert_notification_row alert_id user_id u p emailOk smsOk pushOk now).next_retry_at = none :=
  ⟨rfl, rfl, rfl⟩

/-- The WHERE clause of `get_alerts`, characterised: with a location filter
at nonzero latitude and longitude, a row matches exactly when its
coordinates lie in the equirectangular bounding box `lat ± r/111` by
`lon ± r/(111·|lat|)`; no great-circle distance enters the condition. -/
theorem get_alerts_location_box_iff (la lo r : ℚ) (hla : la ≠ 0) (hlo : lo ≠ 0)
    (a : AlertRec) (alerts : List AlertRec) :
    a ∈ get_alerts_matching { location := some ⟨some la, some lo, r⟩ } alerts ↔
      a ∈ alerts ∧
      ((∃ x, a.latitude = some x ∧ la - r / 111 ≤ x ∧ x ≤ la + r / 111) ∧
       (∃ y, a.longitude = some y ∧ lo - r / (111 * |la|) ≤ y ∧ y ≤ lo + r / (111 * |la|))) := by
  have hp : passes_filters { location := some ⟨some la, some lo, r⟩ } a = true ↔
      ((∃ x, a.latitude = some x ∧ la - r / 111 ≤ x ∧ x ≤ la + r / 111) ∧
       (∃ y, a.longitude = some y ∧ lo - r / (111 * |la|) ≤ y ∧ y ≤ lo + r / (111 * |la|))) := by
    unfold passes_filters location_filter_pred
    simp only [truthyS, truthyQ, Option.getD_some]
    cases a.latitude <;> cases a.longitude <;> simp [hla, hlo]
  unfold get_alerts_matching
  rw [List.mem_filter, hp]

/-- The alert at (1.5, 1.5) matches the WHERE clause of the location filter
centred at (1, 1) with radius 111 km. -/
theorem get_alerts_location_box_iff_witness :
    alertW ∈ get_alerts_matching filtersW [alertW] :=
  (get_alerts_location_box_iff 1 1 111 (by norm_num) (by norm_num) alertW [alertW]).mpr
    ⟨List.mem_singleton_self _,
     ⟨1.5, rfl, by norm_num, by norm_num⟩,
     ⟨1.5, rfl, by norm_num, by norm_num⟩⟩

/-- C3: with a truthy alert location, every user id returned by
`_find_affected_users` belongs to an active user, and the first stored
location of that user is within `radius_km` of the alert location under the
geodesic distance — the bounding box only pre-filters. -/
theorem find_affected_users_sound
    (dist : ℚ → ℚ → ℚ → ℚ → ℚ) (location : LocationData) (radius_km : ℚ)
    (alert_type : Option String) (severity : String) (db : UsersDb) (uid : String)
    (la lo : ℚ) (hla : location.latitude = some la) (hlo : location.longitude = some lo)
    (hla0 : la ≠ 0) (hlo0 : lo ≠ 0)
    (hmem : uid ∈ find_affected_users dist location radius_km alert_type severity db) :
    (∃ u ∈ db.users, u.id = uid ∧ u.is_active = true) ∧
    ∃ l, db.user_locations.find? (fun l => l.user_id == uid) = some l ∧
      dist la lo (l.latitude.getD 0) (l.longitude.getD 0) ≤ radius_km := by
  unfold find_affected_users at hmem
  rw [hla, hlo] at hmem
  simp only [truthyQ, Option.getD_some] at hmem
  rw [if_pos (by simp [hla0, hlo0])] at hmem
  rw [List.mem_filter] at hmem
  obtain ⟨hbox, hpred⟩ := hmem
  constructor
  · unfold box_user_ids at hbox
    simp only [List.mem_flatMap] at hbox
    obtain ⟨u, hu, l, _, p, _, hin⟩ := hbox
    by_cases hc : (l.user_id == u.id && p.user_id == u.id &&
        (match l.latitude with
         | none => false
         | some x => decide (la - radius_km / 111 ≤ x ∧ x ≤ la + radius_km / 111)) &&
        (match l.longitude with
         | none => false
         | some y => decide (lo - radius_km / (if la ≠ 0 then 111 * |la| else 111) ≤ y ∧
             y ≤ lo + radius_km / (if la ≠ 0 then 111 * |la| else 111))) &&
        u.is_active &&
        (!truthyS alert_type || decide (alert_type.getD "" ∈ p.alert_types)) &&
        sev_pref_ok severity p.severity_threshold) = true
    · rw [if_pos hc] at hin
      have huid : uid = u.id := by simpa using hin
      subst huid
      simp only [Bool.and_eq_true] at hc
      exact ⟨u, hu, rfl, hc.1.1.2⟩
    · rw [if_neg hc] at hin
      simp at hin
  · cases hfind : db.user_locations.find? (fun l => l.user_id == uid) with
    | none => rw [hfind] at hpred; simp at hpred
    | some l =>
      rw [hfind] at hpred
      simp only [Bool.and_eq_true, decide_eq_true_eq] at hpred
      exact ⟨l, rfl, hpred.2⟩

/-- Witness for C3: user `u1` of `udbW` is returned for a tide alert at
(1, 1) and satisfies the soundness conclusion. -/
theorem find_affected_users_sound_witness :
    (∃ u ∈ udbW.users, u.id = "u1" ∧ u.is_active = true) ∧
    ∃ l, udbW.user_locations.find? (fun l => l.user_id == "u1") = some l ∧
      distW 1 1 (l.latitude.getD 0) (l.longitude.getD 0) ≤ 50 :=
  find_affected_users_sound distW locW 50 (some "tide") "medium" udbW "u1" 1 1
    rfl rfl (by norm_num) (by norm_num) (by
      have h : find_affected_users distW locW 50 (some "tide") "medium" udbW = ["u1"] := by
        norm_num [find_affected_users, locW, udbW, box_user_ids, truthyQ, truthyS,
          sev_pref_ok, list_index_of, severity_levels, distW, List.find?]
        decide
      rw [h]
      exact List.mem_singleton_self _)

/-- Half-even rounding never overshoots an integer upper bound. -/
theorem round_half_even_le_of_le (q : ℚ) (n : ℤ) (h : q ≤ n) :
    round_half_even q ≤ n := by
  have hfl : ⌊q⌋ ≤ n := by
    have h2 : ⌊q⌋ ≤ ⌊(n : ℚ)⌋ := Int.floor_le_floor h
    simpa using h2
  have key : 0 < Int.fract q → ⌊q⌋ + 1 ≤ n := by
    intro hpos
    by_contra hcon
    push_neg at hcon
    have hn : n = ⌊q⌋ := le_antisymm (by omega) hfl
    have hq : (⌊q⌋ : ℚ) < q := by
      have h3 := Int.floor_add_fract q
      linarith
    have h4 : q ≤ (⌊q⌋ : ℚ) := by
      rw [← hn]
      exact_mod_cast h
    linarith
  unfold round_half_even
  split_ifs with h1 h2 h3
  · exact hfl
  · exact key (lt_trans (by norm_num) h2)
  · exact hfl
  · exact key (lt_of_lt_of_le (by norm_num) (not_lt.mp h1))

/-- Half-even rounding never undershoots an integer lower bound. -/
theorem le_round_half_even_of_le (q : ℚ) (n : ℤ) (h : (n : ℚ) ≤ q) :
    n ≤ round_half_even q := by
  have hfl : n ≤ ⌊q⌋ := Int.le_floor.mpr h
  unfold round_half_even
  split_ifs <;> omega

/-- `round(q, 3)` stays nonnegative on nonnegative input. -/
theorem pyRound3_nonneg (q : ℚ) (h : 0 ≤ q) : 0 ≤ pyRound3 q := by
  unfold pyRound3
  have h1 : (0 : ℤ) ≤ round_half_even (q * 1000) :=
    le_round_half_even_of_le _ 0 (by push_cast; linarith)
  have h2 : (0 : ℚ) ≤ (round_half_even (q * 1000) : ℚ) := by exact_mod_cast h1
  exact div_nonneg h2 (by norm_num)

/-- `round(q, 3)` stays at most one on input at most one. -/
theorem pyRound3_le_one (q : ℚ) (h : q ≤ 1) : pyRound3 q ≤ 1 := by
  unfold pyRound3
  have h1 : round_half_even (q * 1000) ≤ 1000 :=
    round_half_even_le_of_le _ 1000 (by push_cast; linarith)
  have h2 : (round_half_even (q * 1000) : ℚ) ≤ 1000 := by exact_mod_cast h1
  rw [div_le_one (by norm_num)]
  exact h2

/-- The clamped simulation output lies in `[0, 1]` for every input and every
noise value. -/
theorem simulate_flood_prediction_mem (data : MLInput) (noise : ℚ) :
    0 ≤ simulate_flood_prediction data noise ∧
      simulate_flood_prediction data noise ≤ 1 := by
  unfold simulate_flood_prediction
  refine ⟨le_max_left 0 _, max_le (by norm_num) (min_le_left 1 _)⟩

/-- The factor sum of the code equals the closed-form formula of the claim. -/
theorem simulate_eq_claimed (data : MLInput) (noise : ℚ) :
    simulate_flood_prediction data noise = claimed_flood_probability data noise := by
  unfold simulate_flood_prediction claimed_flood_probability
  ring_nf

/-- C7 counterexample: on all-absent inputs with noise `1/10000` (inside
`[-0.1, 0.1]`), the untrained model reports flood probability `0`, while the
closed-form claimed value is `1/10000` — the returned probability is the
clamped formula rounded to three decimals, not the clamped formula itself. -/
theorem predict_flood_risk_rounding_counterexample :
    (-(1 : ℚ) / 10 ≤ 1 / 10000 ∧ (1 : ℚ) / 10000 ≤ 1 / 10) ∧
    (predict_flood_risk_sim {} {} (1 / 10000) (4 / 5)).map
      (fun r => r.flood_probability) = some 0 ∧
    claimed_flood_probability {} (1 / 10000) = 1 / 10000 ∧
    (0 : ℚ) ≠ 1 / 10000 := by
  have hsim : simulate_flood_prediction {} (1 / 10000) = 1 / 10000 := by
    unfold simulate_flood_prediction
    norm_num
  have hclaim : claimed_flood_probability {} (1 / 10000) = 1 / 10000 := by
    unfold claimed_flood_probability
    norm_num
  have hround : pyRound3 (1 / 10000) = 0 := by
    unfold pyRound3 round_half_even
    norm_num [Int.fract]
  refine ⟨by norm_num, ?_, hclaim, by norm_num⟩
  unfold predict_flood_risk_sim
  rw [if_neg (by simp)]
  dsimp only
  rw [hsim, hround]
  simp

/-- C7 (amended): for the untrained model, `predict_flood_risk` takes the
simulation branch — `model_type` is `"simulation"` and the returned
`flood_probability` is the closed-form sum of the claim plus noise, clamped to
`[0, 1]` and rounded to three decimals; in particular it always lies in
`[0, 1]`. -/
theorem predict_flood_risk_sim_spec (st : FloodModelState)
    (hst : st.is_trained = false) (data : MLInput) (noise conf : ℚ)
    (hn1 : -(1 / 10) ≤ noise) (hn2 : noise ≤ 1 / 10) :
    ∃ r, predict_flood_risk_sim st data noise conf = some r ∧
      r.model_type = "simulation" ∧
      r.flood_probability = pyRound3 (claimed_flood_probability data noise) ∧
      0 ≤ r.flood_probability ∧ r.flood_probability ≤ 1 := by
  have hbr : predict_flood_risk_sim st data noise conf = some
      { flood_probability := pyRound3 (simulate_flood_prediction data noise)
        risk_level :=
          if simulate_flood_prediction data noise < 0.2 then "low"
          else if simulate_flood_prediction data noise < 0.5 then "medium"
          else if simulate_flood_prediction data noise < 0.8 then "high"
          else "critical"
        confidence_score := conf
        model_version := st.model_version
        model_type := "simulation" } := by
    unfold predict_flood_risk_sim
    rw [hst]
    rfl
  rw [hbr]
  exact ⟨_, rfl, rfl, by rw [simulate_eq_claimed],
    pyRound3_nonneg _ (simulate_flood_prediction_mem data noise).1,
    pyRound3_le_one _ (simulate_flood_prediction_mem data noise).2⟩

/-- Witness for C7 (amended) at tide level 3 m and noise 0. -/
theorem predict_flood_risk_sim_spec_witness :
    ∃ r, predict_flood_risk_sim {} { tide_level := some 3 } 0 (9 / 10) = some r ∧
      r.model_type = "simulation" ∧
      r.flood_probability = pyRound3 (claimed_flood_probability { tide_level := some 3 } 0) ∧
      0 ≤ r.flood_probability ∧ r.flood_probability ≤ 1 :=
  predict_flood_risk_sim_spec {} rfl { tide_level := some 3 } 0 (9 / 10)
    (by norm_num) (by norm_num)

/-- The dedup filter expression always raises: `source_id` is not among the
attributes of the `Alert` class. -/
theorem dedup_filter_expr_raises :
    dedup_filter_expr =
      Except.error "AttributeError: type object Alert has no attribute source_id" := rfl

/-- Every hazard branch either is not triggered (state unchanged) or raises
at its dedup query. -/
theorem check_branch_cases (triggered : Bool) (payload : AlertData)
    (station_id alert_type new_id : String) (now : ℚ) (db : AlertDb) :
    check_branch triggered payload station_id alert_type new_id now db =
      if triggered then
        Except.error "AttributeError: type object Alert has no attribute source_id"
      else Except.ok db := by
  cases triggered <;> simp [check_branch, dedup_filter_expr_raises]

/-- C2: for every station and every alert type, `_check_alert_conditions`
never creates a second alert of that type for the station while a recent
active one exists — vacuously, because it never creates any alert: the first
triggered branch raises `AttributeError` at `Alert.source_id` (no such
column) before anything is committed, and the function-level `except`
returns with the database unchanged; when no branch triggers the database is
also unchanged. -/
theorem check_alert_conditions_creates_nothing (st : Station) (d : StationData)
    (flood_prob : ℚ) (ids : String × String × String × String) (now : ℚ)
    (db : AlertDb) :
    check_alert_conditions st d flood_prob ids now db = db := by
  unfold check_alert_conditions
  simp only [check_branch_cases]
  cases h1 : flood_branch_triggered d flood_prob <;>
    cases h2 : tide_branch_triggered d <;>
    cases h3 : wave_branch_triggered d <;>
    cases h4 : storm_branch_triggered d <;>
    rfl

/-- C4 (code bug): the alert at (1.5, 1.5) matches the bounding-box WHERE
clause of the filter centred at (1, 1) with radius 111 km, yet `get_alerts`
returns `[]` — as it does on every input — because the response loop reads
`alert.source` (and later `alert.resolved_at`), attributes the `Alert` model
does not declare, and the `except` handler turns the `AttributeError` into
`[]`. -/
theorem get_alerts_source_attribute_bug :
    alertW ∈ get_alerts_matching filtersW [alertW] ∧
    ∀ (f : AlertFilters) (alerts : List AlertRec), get_alerts f alerts = [] := by
  refine ⟨get_alerts_location_box_iff_witness, ?_⟩
  intro f alerts
  unfold get_alerts
  cases hm : get_alerts_matching f alerts with
  | nil => rfl
  | cons x xs => rfl

/-- C8: every alert record created by the monitoring service has an alert
type among the four hazard conditions and carries a location and one of the
four severities — vacuously: `create_alert` stores nothing, because the
`Alert(...)` constructor raises `TypeError` at the `source` keyword, which
is no column of the model, so the monitoring paths create no alert records
at all. -/
theorem monitoring_alert_records (d : AlertData) (h : MonitoringAlertData d)
    (id : String) (now : ℚ) (db : AlertDb) :
    (create_alert_attempt id now d db).1.success = false ∧
    (create_alert_attempt id now d db).2 = db ∧
    ∀ a, a ∈ (create_alert_attempt id now d db).2.alerts → a ∉ db.alerts →
      ((a.alert_type = some "flood" ∨ a.alert_type = some "tide" ∨
        a.alert_type = some "wave" ∨ a.alert_type = some "storm") ∧
       a.latitude.isSome = true ∧ a.longitude.isSome = true ∧
       a.location_name.isSome = true ∧
       (a.severity = "low" ∨ a.severity = "medium" ∨ a.severity = "high" ∨
        a.severity = "critical")) := by
  have hdb : (create_alert_attempt id now d db).2 = db := rfl
  refine ⟨rfl, hdb, ?_⟩
  intro a ha hna
  rw [hdb] at ha
  exact absurd ha hna

/-- Witness for C8 at the system-wide payload and an empty database: the
creation attempt fails and stores nothing. -/
theorem monitoring_alert_records_witness :
    (create_alert_attempt "a9" 0 (system_alert_data 0) ⟨[], []⟩).1.success = false ∧
    (create_alert_attempt "a9" 0 (system_alert_data 0) ⟨[], []⟩).2 = (⟨[], []⟩ : AlertDb) :=
  ⟨(monitoring_alert_records (system_alert_data 0) (.system 0) "a9" 0 ⟨[], []⟩).1,
   (monitoring_alert_records (system_alert_data 0) (.system 0) "a9" 0 ⟨[], []⟩).2.1⟩

/-- C10 (code bug): acknowledging the single unacknowledged alert of
`dbAckW` does not succeed: the branch constructs
`AlertHistory(alert_id=..., user_id=..., action=..., timestamp=...,
details=...)`, and `user_id` is no column of the `AlertHistory` model, so
the constructor raises `TypeError`, the rollback discards the pending
`acknowledged_at` / `acknowledged_by` assignments, and the call returns
success false with the state unchanged.  (The not-found and
already-acknowledged branches return their errors as the claim says.) -/
theorem acknowledge_alert_history_kwarg_bug :
    dbAckW.alerts.find? (fun a => a.id == "a1") = some alertAckW ∧
    alertAckW.acknowledged_at = none ∧
    first_invalid_kwarg alert_history_columns ack_history_kwargs = some "user_id" ∧
    (acknowledge_alert "a1" "u1" 5 dbAckW).1 =
      { success := false,
        error := some "TypeError: user_id is an invalid keyword argument for AlertHistory" } ∧
    (acknowledge_alert "a1" "u1" 5 dbAckW).2 = dbAckW :=
  ⟨rfl, rfl, rfl, rfl, rfl⟩

end CTAS
